import Mathlib

/-!
Verification of `subdomain_recon.py` (subdomain enumeration tool).

Shallow embedding: external effects (subprocess execution, DNS lookups via
`socket`, HTTP requests via `requests`) are modelled by oracle parameters;
a `none` / `.failed` value of an oracle stands for the Python call raising
an exception.  Python `set`/`dict` values keyed by candidate strings become
`Finset`s; within one run each candidate is probed exactly once, so the
thread-pool fan-out of the script is observationally a pure map over the
candidate set, which is how it is embedded here.
-/

namespace SubdomainRecon

/-- Python `hay.endswith(needle)`: Boolean string-suffix test on code points. -/
def pyEndsWith (hay needle : String) : Bool :=
  needle.data.isSuffixOf hay.data

/-- Python `needle in hay` for strings: Boolean substring-containment test. -/
def pyIn (needle hay : String) : Bool :=
  decide (needle.data <:+: hay.data)

/-- Helper for `pySplit`: scan the character list, cutting at each separator;
`acc` holds the characters of the current chunk in reverse. -/
def splitAux (sep : Char) (acc : List Char) : List Char → List (List Char)
  | [] => [acc.reverse]
  | c :: rest =>
    if c = sep then acc.reverse :: splitAux sep [] rest
    else splitAux sep (c :: acc) rest

/-- Python `s.split(sep)` for a one-character separator (the script only ever
splits on a dot): cuts at every occurrence, so `"".split('.') == [""]` and
`".".split('.') == ["", ""]`. -/
def pySplit (s : String) (sep : Char) : List String :=
  (splitAux sep [] s.data).map (fun l => ⟨l⟩)

/-- Python `sep.join(parts)`. -/
def pyJoin (sep : String) : List String → String
  | [] => ""
  | [x] => x
  | x :: xs => x ++ sep ++ pyJoin sep xs

/-- Whitespace characters stripped by Python `str.strip()`. -/
def pyIsSpace (c : Char) : Bool :=
  c = ' ' || c = '\t' || c = '\n' || c = '\r' || c = '\x0b' || c = '\x0c'

/-- Python `line.strip()`: drop leading and trailing whitespace. -/
def pyStrip (s : String) : String :=
  ⟨((s.data.dropWhile pyIsSpace).reverse.dropWhile pyIsSpace).reverse⟩

/-- Python truthiness of an optional string (`if ip:`): `None` and the empty
string are falsy, every other string truthy. -/
def pyTruthyStr : Option String → Bool
  | none => false
  | some s => !(s == "")

/-- Outcome of `subprocess.run(cmd, shell=True, ..., timeout=timeout)`:
either the process completed (with an exit code, captured stdout and stderr),
or the call raised (binary missing, timeout expired, spawn error). -/
inductive ExecOutcome where
  | completed (returncode : Int) (stdout stderr : String)
  | failed
deriving DecidableEq

/-- Embedding of `run_command` (src/subdomain_recon.py lines 42-51): on a
completed process the captured stdout is returned whatever the exit code
(a non-zero code only logs a warning); on any raised exception the empty
string is returned.  The function is total: it never propagates an error. -/
def run_command (outcome : ExecOutcome) : String :=
  match outcome with
  | .completed _ stdout _ => stdout
  | .failed => ""

/-- Embedding of `extract_subdomains_level` (lines 63-70): for each candidate,
split on a dot; when at least `level + 2` labels are present, keep the last
`level + 2` labels rejoined with a dot (`parts[-(level+2):]`); collect the
results as a set. -/
def extract_subdomains_level (subdomains : Finset String) (level : Nat) :
    Finset String :=
  (subdomains.filter (fun sub => (pySplit sub '.').length ≥ level + 2)).image
    (fun sub =>
      let parts := pySplit sub '.'
      pyJoin "." (parts.drop (parts.length - (level + 2))))

/-- Embedding of `dns_resolve` (lines 72-82).  The oracle `ghbn` models
`socket.gethostbyname` (`none` = the call raised), `ghbnEx` models
`socket.gethostbyname_ex(sub)[0]` (`none` = that call raised).  On a failed
address lookup the function returns `(None, None)`; on success the canonical
name is looked up, its failure being non-fatal (cname stays `None`). -/
def dns_resolve (ghbn ghbnEx : String → Option String) (subdomain : String) :
    Option String × Option String :=
  match ghbn subdomain with
  | none => (none, none)
  | some ip => (some ip, ghbnEx subdomain)

/-- Per-candidate probe record stored in `subdomain_data`:
`{"ip": ..., "cname": ..., "http_status": ...}` with `none` for Python `None`. -/
structure ProbeRecord where
  ip : Option String
  cname : Option String
  http_status : Option Nat
deriving DecidableEq, Repr

/-- Python guard `if status and status < 600` (line 144): the status must be
present, truthy as an integer (non-zero) and strictly below 600. -/
def statusActive : Option Nat → Bool
  | none => false
  | some s => decide (s ≠ 0) && decide (s < 600)

/-- One unit of work of the probing loop (lines 138-147) for a single
candidate: resolve DNS; if the ip is truthy perform the HTTP check (oracle
`http`, modelling `http_check`: the final status code, or `none` when
`requests.get` raised) and build the record, marking the candidate active
when the status guard holds; otherwise record an all-`None` record, never
consulting the HTTP oracle.  Returns the record and the active flag. -/
def probe_one (ghbn ghbnEx : String → Option String) (http : String → Option Nat)
    (sub : String) : ProbeRecord × Bool :=
  let r := dns_resolve ghbn ghbnEx sub
  if pyTruthyStr r.1 then
    let status := http sub
    (⟨r.1, r.2, status⟩, statusActive status)
  else
    (⟨none, none, none⟩, false)

/-- The full result map `subdomain_data` built by the probing loop: one record
per candidate, keyed by the candidate string. -/
def subdomain_data (ghbn ghbnEx : String → Option String)
    (http : String → Option Nat) (cands : Finset String) :
    Finset (String × ProbeRecord) :=
  cands.image (fun s => (s, (probe_one ghbn ghbnEx http s).1))

/-- The active map `active_subdomains`: the records of exactly those
candidates whose status guard held, copied from `subdomain_data`. -/
def active_subdomains (ghbn ghbnEx : String → Option String)
    (http : String → Option Nat) (cands : Finset String) :
    Finset (String × ProbeRecord) :=
  (cands.filter (fun s => (probe_one ghbn ghbnEx http s).2 = true)).image
    (fun s => (s, (probe_one ghbn ghbnEx http s).1))

/-- Per-tool harvesting (line 113): split the tool's stdout into lines, keep
lines whose stripped form is non-empty and that contain the domain as a
substring, and collect the stripped forms as a set.  Line splitting is
modelled on the newline character. -/
def tool_found (domain out : String) : Finset String :=
  (((pySplit out '\n').filter
      (fun line => !(pyStrip line == "") && pyIn domain line)).map
    pyStrip).toFinset

/-- Aggregation loop (lines 109-118) over the configured tools.  Each tool is
a pair of its name and `none` when unavailable (skipped) or `some stdout`
when it ran; the outputs of available tools are unioned into
`all_subdomains`. -/
def aggregate (domain : String) (toolRuns : List (String × Option String)) :
    Finset String :=
  toolRuns.foldl
    (fun acc t =>
      match t.2 with
      | some out => acc ∪ tool_found domain out
      | none => acc)
    ∅

/-- Names of the tools that executed (`available_tools`). -/
def available_tools (toolRuns : List (String × Option String)) : List String :=
  (toolRuns.filter (fun t => t.2.isSome)).map Prod.fst

/-- Post-aggregation filter (line 121): keep exactly the aggregated names
that literally end with the target domain. -/
def filtered_subdomains (domain : String)
    (toolRuns : List (String × Option String)) : Finset String :=
  (aggregate domain toolRuns).filter (fun s => pyEndsWith s domain = true)

/-- Lines of a TXT report (lines 174-180): the candidate names sorted
lexicographically, one per line. -/
def txt_lines (s : Finset String) : List String :=
  s.sort (· ≤ ·)

/-- The `estadisticas` dictionary (lines 152-157). -/
structure Stats where
  total : Nat
  activos : Nat
  nivel2 : Nat
  nivel3 : Nat
deriving DecidableEq, Repr

/-- The `metadata` dictionary (lines 158-163). -/
structure Metadata where
  timestamp : String
  dominio : String
  herramientas : List String
  estadisticas : Stats
deriving DecidableEq, Repr

/-- Content of one JSON report: `{"metadata": ..., "subdominios": ...}`. -/
structure JsonReport where
  metadata : Metadata
  subdominios : Finset (String × ProbeRecord)
deriving DecidableEq

/-- The four artifacts written by one run (lines 164-180): full and active
JSON reports, full and active TXT line lists. -/
structure RunReports where
  full_json : JsonReport
  active_json : JsonReport
  full_txt : List String
  active_txt : List String
deriving DecidableEq

/-- Embedding of the data pipeline of `main` (lines 92-182), from tool
outputs and network oracles to the contents of the four report artifacts:
aggregate and filter candidates, probe each one, extract level-2/3 groups,
compute statistics and metadata, and assemble the reports. -/
def runPipeline (domain timestamp : String)
    (toolRuns : List (String × Option String))
    (ghbn ghbnEx : String → Option String) (http : String → Option Nat) :
    RunReports :=
  let cands := filtered_subdomains domain toolRuns
  let data := subdomain_data ghbn ghbnEx http cands
  let act := active_subdomains ghbn ghbnEx http cands
  let stats : Stats :=
    { total := cands.card
      activos := act.card
      nivel2 := (extract_subdomains_level cands 2).card
      nivel3 := (extract_subdomains_level cands 3).card }
  let md : Metadata :=
    { timestamp := timestamp
      dominio := domain
      herramientas := available_tools toolRuns
      estadisticas := stats }
  { full_json := { metadata := md, subdominios := data }
    active_json := { metadata := md, subdominios := act }
    full_txt := txt_lines cands
    active_txt := txt_lines ((act.image Prod.fst)) }

/-! Helper lemmas about the probing step. -/

theorem statusActive_iff (st : Option Nat) :
    statusActive st = true ↔ ∃ code, st = some code ∧ code ≠ 0 ∧ code < 600 := by
  cases st <;> simp [statusActive]

theorem probe_one_dns_none (gh ghEx : String → Option String)
    (http : String → Option Nat) (sub : String) (h : gh sub = none) :
    probe_one gh ghEx http sub = (⟨none, none, none⟩, false) := by
  simp [probe_one, dns_resolve, h, pyTruthyStr]

theorem probe_one_truthy (gh ghEx : String → Option String)
    (http : String → Option Nat) (sub : String)
    (h : pyTruthyStr (dns_resolve gh ghEx sub).1 = true) :
    probe_one gh ghEx http sub =
      (⟨(dns_resolve gh ghEx sub).1, (dns_resolve gh ghEx sub).2, http sub⟩,
        statusActive (http sub)) := by
  simp [probe_one, h]

theorem mem_subdomain_data_iff (gh ghEx : String → Option String)
    (http : String → Option Nat) (cands : Finset String)
    (p : String × ProbeRecord) :
    p ∈ subdomain_data gh ghEx http cands ↔
      ∃ s ∈ cands, p = (s, (probe_one gh ghEx http s).1) := by
  simp [subdomain_data, Finset.mem_image, eq_comm]

theorem mem_active_iff (gh ghEx : String → Option String)
    (http : String → Option Nat) (cands : Finset String)
    (p : String × ProbeRecord) :
    p ∈ active_subdomains gh ghEx http cands ↔
      ∃ s ∈ cands, (probe_one gh ghEx http s).2 = true ∧
        p = (s, (probe_one gh ghEx http s).1) := by
  simp only [active_subdomains, Finset.mem_image, Finset.mem_filter]
  constructor
  · rintro ⟨s, ⟨hs, hact⟩, rfl⟩
    exact ⟨s, hs, hact, rfl⟩
  · rintro ⟨s, hs, hact, rfl⟩
    exact ⟨s, ⟨hs, hact⟩, rfl⟩

theorem probe_one_active_status (gh ghEx : String → Option String)
    (http : String → Option Nat) (sub : String)
    (h : (probe_one gh ghEx http sub).2 = true) :
    ∃ code, (probe_one gh ghEx http sub).1.http_status = some code ∧
      code ≠ 0 ∧ code < 600 := by
  by_cases htr : pyTruthyStr (dns_resolve gh ghEx sub).1 = true
  · rw [probe_one_truthy gh ghEx http sub htr] at h ⊢
    rcases (statusActive_iff (http sub)).mp h with ⟨code, hc, hnz, hlt⟩
    exact ⟨code, by simpa using hc, hnz, hlt⟩
  · exfalso
    have : probe_one gh ghEx http sub =
        (⟨none, none, none⟩, false) := by
      simp [probe_one, htr]
    rw [this] at h
    exact Bool.false_ne_true h

/-! Claim theorems. -/

/-- C1: for every input domain and every collection of tool outputs, every
candidate remaining in the final full candidate set (after the
post-aggregation filter of line 121) ends with the domain: the domain's
characters are a suffix of the candidate's characters. -/
theorem final_candidates_end_with_domain (domain : String)
    (toolRuns : List (String × Option String)) (c : String)
    (hc : c ∈ filtered_subdomains domain toolRuns) :
    domain.data <:+ c.data := by
  have h := (Finset.mem_filter.mp hc).2
  simpa [pyEndsWith, List.isSuffixOf_iff_suffix] using h

/-- Witness for C1 at a concrete run. -/
theorem final_candidates_end_with_domain_w :
    "testfire.net".data <:+ "demo.testfire.net".data :=
  final_candidates_end_with_domain "testfire.net"
    [("assetfinder", some "demo.testfire.net")] "demo.testfire.net" (by decide)

/-- C2: the probing phase produces exactly one record per filtered candidate
(the key set of the full record map is the candidate set and its cardinality
matches), and the full TXT report lists exactly the same candidate set, each
candidate once. -/
theorem full_map_matches_candidates_and_txt (gh ghEx : String → Option String)
    (http : String → Option Nat) (cands : Finset String) :
    (subdomain_data gh ghEx http cands).image Prod.fst = cands ∧
    (subdomain_data gh ghEx http cands).card = cands.card ∧
    (txt_lines cands).toFinset = cands ∧
    (txt_lines cands).Nodup := by
  refine ⟨?_, ?_, ?_, ?_⟩
  · rw [subdomain_data, Finset.image_image]
    exact Finset.image_id
  · exact Finset.card_image_of_injective cands
      (fun a b hab => congrArg Prod.fst hab)
  · exact Finset.sort_toFinset _ _
  · exact Finset.sort_nodup _ _

/-- C3: the active map is contained in the full record map, and every record
placed in the active map carries a present HTTP status strictly below 600. -/
theorem active_subset_and_status_bound (gh ghEx : String → Option String)
    (http : String → Option Nat) (cands : Finset String) :
    active_subdomains gh ghEx http cands ⊆ subdomain_data gh ghEx http cands ∧
    ∀ p ∈ active_subdomains gh ghEx http cands,
      ∃ code, p.2.http_status = some code ∧ code < 600 := by
  constructor
  · intro p hp
    rcases (mem_active_iff gh ghEx http cands p).mp hp with ⟨s, hs, _, rfl⟩
    exact (mem_subdomain_data_iff gh ghEx http cands _).mpr ⟨s, hs, rfl⟩
  · intro p hp
    rcases (mem_active_iff gh ghEx http cands p).mp hp with ⟨s, _, hact, rfl⟩
    rcases probe_one_active_status gh ghEx http s hact with ⟨code, hst, _, hlt⟩
    exact ⟨code, hst, hlt⟩

/-- Witness for C3: a concrete active record with status 200. -/
theorem active_subset_and_status_bound_w :
    ("demo.testfire.net",
        (probe_one (fun _ => some "1.2.3.4") (fun _ => none)
          (fun _ => some 200) "demo.testfire.net").1)
      ∈ subdomain_data (fun _ => some "1.2.3.4") (fun _ => none)
          (fun _ => some 200) {"demo.testfire.net"} ∧
    ∃ code,
      (probe_one (fun _ => some "1.2.3.4") (fun _ => none)
          (fun _ => some 200) "demo.testfire.net").1.http_status = some code ∧
        code < 600 := by
  have h := active_subset_and_status_bound (fun _ => some "1.2.3.4")
    (fun _ => none) (fun _ => some 200) {"demo.testfire.net"}
  have hmem : ("demo.testfire.net",
      (probe_one (fun _ => some "1.2.3.4") (fun _ => none)
        (fun _ => some 200) "demo.testfire.net").1)
      ∈ active_subdomains (fun _ => some "1.2.3.4") (fun _ => none)
          (fun _ => some 200) {"demo.testfire.net"} := by decide
  exact ⟨h.1 hmem, h.2 _ hmem⟩

/-- C4 counterexample: a candidate whose DNS resolution succeeded and whose
HTTP check returned status code 0 (a value below 600) is NOT copied into the
active map, because the guard `if status and status < 600` also requires the
status to be truthy (non-zero) in Python. -/
theorem status_zero_not_promoted :
    pyTruthyStr (dns_resolve (fun _ => some "1.2.3.4") (fun _ => none)
        "x.example.com").1 = true ∧
    (fun _ : String => some (0 : Nat)) "x.example.com" = some 0 ∧
    (0 : Nat) < 600 ∧
    active_subdomains (fun _ => some "1.2.3.4") (fun _ => none)
        (fun _ => some (0 : Nat)) {"x.example.com"} = ∅ := by
  decide

/-- C4 amended: if DNS resolution succeeded (truthy ip) and the HTTP check
returned a NON-ZERO status code whose value is less than 600, the candidate's
record is copied into the active map. -/
theorem nonzero_status_below_600_promoted (gh ghEx : String → Option String)
    (http : String → Option Nat) (cands : Finset String) (sub : String)
    (hmem : sub ∈ cands)
    (hdns : pyTruthyStr (dns_resolve gh ghEx sub).1 = true)
    (code : Nat) (hcode : http sub = some code) (hnz : code ≠ 0)
    (hlt : code < 600) :
    (sub, (probe_one gh ghEx http sub).1)
      ∈ active_subdomains gh ghEx http cands := by
  refine (mem_active_iff gh ghEx http cands _).mpr ⟨sub, hmem, ?_, rfl⟩
  rw [probe_one_truthy gh ghEx http sub hdns]
  exact (statusActive_iff (http sub)).mpr ⟨code, hcode, hnz, hlt⟩

/-- Witness for the amended C4 at status 200. -/
theorem nonzero_status_below_600_promoted_w :
    ("demo.testfire.net",
        (probe_one (fun _ => some "5.6.7.8") (fun _ => some "cdn.example.net")
          (fun _ => some 200) "demo.testfire.net").1)
      ∈ active_subdomains (fun _ => some "5.6.7.8")
          (fun _ => some "cdn.example.net") (fun _ => some 200)
          {"demo.testfire.net"} :=
  nonzero_status_below_600_promoted _ _ _ _ _ (by decide) (by decide) 200 rfl
    (by decide) (by decide)

/-- C5: when DNS resolution fails for a candidate, the probe step yields the
all-absent record, consults no HTTP oracle (the outcome is independent of
it), still records the candidate in the full map, and never promotes it to
the active map; when DNS yields an ip but the canonical-name lookup fails,
the record keeps the ip with the cname absent. -/
theorem dns_failure_and_cname_fallback (gh ghEx : String → Option String)
    (http httpAlt : String → Option Nat) (cands : Finset String)
    (sub : String) :
    (gh sub = none →
      (probe_one gh ghEx http sub).1 = ⟨none, none, none⟩ ∧
      probe_one gh ghEx http sub = probe_one gh ghEx httpAlt sub ∧
      (sub ∈ cands →
        (sub, (⟨none, none, none⟩ : ProbeRecord))
          ∈ subdomain_data gh ghEx http cands) ∧
      sub ∉ (active_subdomains gh ghEx http cands).image Prod.fst) ∧
    (∀ ip, gh sub = some ip → ip ≠ "" → ghEx sub = none →
      (probe_one gh ghEx http sub).1 = ⟨some ip, none, http sub⟩) := by
  constructor
  · intro hfail
    have h1 := probe_one_dns_none gh ghEx http sub hfail
    have h2 := probe_one_dns_none gh ghEx httpAlt sub hfail
    refine ⟨by rw [h1], by rw [h1, h2], ?_, ?_⟩
    · intro hmem
      refine (mem_subdomain_data_iff gh ghEx http cands _).mpr
        ⟨sub, hmem, ?_⟩
      rw [h1]
    · intro habs
      rcases Finset.mem_image.mp habs with ⟨p, hp, hfst⟩
      rcases (mem_active_iff gh ghEx http cands p).mp hp with
        ⟨s, _, hact, rfl⟩
      have hs : s = sub := hfst
      rw [hs, h1] at hact
      exact Bool.false_ne_true hact
  · intro ip hip hne hcn
    have htr : pyTruthyStr (dns_resolve gh ghEx sub).1 = true := by
      simp [dns_resolve, hip, pyTruthyStr, hne]
    rw [probe_one_truthy gh ghEx http sub htr]
    simp [dns_resolve, hip, hcn]

/-- Witness for C5: both branches at concrete oracles. -/
theorem dns_failure_and_cname_fallback_w :
    ((probe_one (fun _ => none) (fun _ => none) (fun _ => some 200)
        "dead.testfire.net").1 = ⟨none, none, none⟩ ∧
      "dead.testfire.net"
        ∉ (active_subdomains (fun _ => none) (fun _ => none)
            (fun _ => some 200) {"dead.testfire.net"}).image Prod.fst) ∧
    (probe_one (fun _ => some "9.9.9.9") (fun _ => none) (fun _ => some 301)
        "alias.testfire.net").1 = ⟨some "9.9.9.9", none, some 301⟩ := by
  have ha := (dns_failure_and_cname_fallback (fun _ => none) (fun _ => none)
      (fun _ => some 200) (fun _ => some 404) {"dead.testfire.net"}
      "dead.testfire.net").1 rfl
  have hb := (dns_failure_and_cname_fallback (fun _ => some "9.9.9.9")
      (fun _ => none) (fun _ => some 301) (fun _ => some 301) ∅
      "alias.testfire.net").2 "9.9.9.9" rfl (by decide) rfl
  exact ⟨⟨ha.1, ha.2.2.2⟩, by simpa using hb⟩

/-- C6: membership in the level extractor's result is characterised exactly:
a name is returned iff some input candidate has at least `level + 2`
dot-separated labels and the name is the dot-rejoining of the suffix of
exactly `level + 2` labels of that candidate. -/
theorem extract_level_characterization (subdomains : Finset String)
    (level : Nat) (x : String) :
    x ∈ extract_subdomains_level subdomains level ↔
      ∃ sub ∈ subdomains, ∃ t, t <:+ pySplit sub '.' ∧
        t.length = level + 2 ∧ x = pyJoin "." t := by
  simp only [extract_subdomains_level, Finset.mem_image, Finset.mem_filter]
  constructor
  · rintro ⟨sub, ⟨hsub, hlen⟩, rfl⟩
    refine ⟨sub, hsub,
      (pySplit sub '.').drop ((pySplit sub '.').length - (level + 2)),
      List.drop_suffix _ _, ?_, rfl⟩
    rw [List.length_drop]
    omega
  · rintro ⟨sub, hsub, t, hsuf, hlen, rfl⟩
    have hle : level + 2 ≤ (pySplit sub '.').length := by
      have := hsuf.length_le
      omega
    refine ⟨sub, ⟨hsub, hle⟩, ?_⟩
    have hdrop := List.suffix_iff_eq_drop.mp hsuf
    rw [hlen] at hdrop
    rw [← hdrop]

/-- C7 counterexample: level extraction with level 2 on
`{"a.b.c.example.com"}` does not return `{"c.example.com"}` — the code keeps
the last `level + 2 = 4` labels, giving `"b.c.example.com"`. -/
theorem extract_level2_example_neq :
    extract_subdomains_level {"a.b.c.example.com"} 2 ≠ {"c.example.com"} := by
  decide

/-- C7 amended: level extraction with level 2 on `{"a.b.c.example.com"}`
returns `{"b.c.example.com"}` (the last four labels), and a candidate with
fewer than four labels, such as `"example.com"`, contributes nothing. -/
theorem extract_level2_example :
    extract_subdomains_level {"a.b.c.example.com"} 2 = {"b.c.example.com"} ∧
    extract_subdomains_level {"example.com"} 2 = ∅ ∧
    "example.com" ∉
      extract_subdomains_level {"a.b.c.example.com", "example.com"} 2 := by
  decide

/-- C8: the tool runner is a total function into strings — on a completed
process it returns the captured stdout whatever the exit code (non-zero
included, where it only logs), and on any raised execution error it returns
the empty string. -/
theorem run_command_total (rc : Int) (stdout stderr : String) :
    run_command (.completed rc stdout stderr) = stdout ∧
    run_command .failed = "" :=
  ⟨rfl, rfl⟩

/-- C9: when the filtered candidate set of a run is empty, the pipeline still
assembles all four artifacts, with statistics `total = 0` and `activos = 0`,
both record maps empty, both TXT reports without lines, and the same
metadata in both JSON reports. -/
theorem empty_candidates_run (domain timestamp : String)
    (toolRuns : List (String × Option String))
    (gh ghEx : String → Option String) (http : String → Option Nat)
    (h : filtered_subdomains domain toolRuns = ∅) :
    (runPipeline domain timestamp toolRuns gh ghEx
        http).full_json.metadata.estadisticas.total = 0 ∧
    (runPipeline domain timestamp toolRuns gh ghEx
        http).full_json.metadata.estadisticas.activos = 0 ∧
    (runPipeline domain timestamp toolRuns gh ghEx
        http).active_json.metadata =
      (runPipeline domain timestamp toolRuns gh ghEx
        http).full_json.metadata ∧
    (runPipeline domain timestamp toolRuns gh ghEx
        http).full_json.subdominios = ∅ ∧
    (runPipeline domain timestamp toolRuns gh ghEx
        http).active_json.subdominios = ∅ ∧
    (runPipeline domain timestamp toolRuns gh ghEx http).full_txt = [] ∧
    (runPipeline domain timestamp toolRuns gh ghEx http).active_txt = [] := by
  simp [runPipeline, h, subdomain_data, active_subdomains, txt_lines]

/-- Witness for C9: a run in which every configured tool was unavailable. -/
theorem empty_candidates_run_w :
    (runPipeline "testfire.net" "20240101_000000"
        [("subscraper", none), ("subfinder", none), ("assetfinder", none),
          ("sublist3r", none)]
        (fun _ => none) (fun _ => none)
        (fun _ => none)).full_json.metadata.estadisticas.total = 0 ∧
    (runPipeline "testfire.net" "20240101_000000"
        [("subscraper", none), ("subfinder", none), ("assetfinder", none),
          ("sublist3r", none)]
        (fun _ => none) (fun _ => none)
        (fun _ => none)).full_json.metadata.estadisticas.activos = 0 ∧
    (runPipeline "testfire.net" "20240101_000000"
        [("subscraper", none), ("subfinder", none), ("assetfinder", none),
          ("sublist3r", none)]
        (fun _ => none) (fun _ => none) (fun _ => none)).active_json.metadata =
      (runPipeline "testfire.net" "20240101_000000"
        [("subscraper", none), ("subfinder", none), ("assetfinder", none),
          ("sublist3r", none)]
        (fun _ => none) (fun _ => none) (fun _ => none)).full_json.metadata ∧
    (runPipeline "testfire.net" "20240101_000000"
        [("subscraper", none), ("subfinder", none), ("assetfinder", none),
          ("sublist3r", none)]
        (fun _ => none) (fun _ => none)
        (fun _ => none)).full_json.subdominios = ∅ ∧
    (runPipeline "testfire.net" "20240101_000000"
        [("subscraper", none), ("subfinder", none), ("assetfinder", none),
          ("sublist3r", none)]
        (fun _ => none) (fun _ => none)
        (fun _ => none)).active_json.subdominios = ∅ ∧
    (runPipeline "testfire.net" "20240101_000000"
        [("subscraper", none), ("subfinder", none), ("assetfinder", none),
          ("sublist3r", none)]
        (fun _ => none) (fun _ => none) (fun _ => none)).full_txt = [] ∧
    (runPipeline "testfire.net" "20240101_000000"
        [("subscraper", none), ("subfinder", none), ("assetfinder", none),
          ("sublist3r", none)]
        (fun _ => none) (fun _ => none) (fun _ => none)).active_txt = [] :=
  empty_candidates_run "testfire.net" "20240101_000000"
    [("subscraper", none), ("subfinder", none), ("assetfinder", none),
      ("sublist3r", none)]
    (fun _ => none) (fun _ => none) (fun _ => none) (by decide)

/-- C10: the post-aggregation filter is a plain character-suffix test, with
no label-boundary check: every aggregated line that ends with the characters
of the domain is retained, and concretely the line `"eviltestfire.net"` — in
which `"testfire.net"` is not preceded by a dot — survives the filter for
domain `"testfire.net"`. -/
theorem suffix_filter_is_plain (domain : String)
    (toolRuns : List (String × Option String)) (s : String)
    (hs : s ∈ aggregate domain toolRuns)
    (hend : pyEndsWith s domain = true) :
    s ∈ filtered_subdomains domain toolRuns ∧
    "eviltestfire.net" ∈ filtered_subdomains "testfire.net"
      [("assetfinder", some "eviltestfire.net")] := by
  refine ⟨Finset.mem_filter.mpr ⟨hs, hend⟩, by decide⟩

/-- Witness for C10 at the concrete run of its second conjunct. -/
theorem suffix_filter_is_plain_w :
    "eviltestfire.net" ∈ filtered_subdomains "testfire.net"
      [("assetfinder", some "eviltestfire.net")] :=
  (suffix_filter_is_plain "testfire.net"
    [("assetfinder", some "eviltestfire.net")] "eviltestfire.net"
    (by decide) (by decide)).1

end SubdomainRecon
